import Mathlib

/-! # AC_AttitudeControl_Multi: throttle/attitude mix and rate-PID defaults

Verification development for
`libraries/AC_AttitudeControl/AC_AttitudeControl_Multi.h`.

Numeric model: the value of a finite C++ `float` / `AP_Float` is an exact
rational (`ℚ`), and a literal such as `0.135f` is the decimal it is written as.
Assignments and comparisons are exact on these values.  The one arithmetic
operation the header performs, the product `1.25f * _thr_mix_min`, is rounded to
IEEE-754 binary32 (round to nearest, ties to even, overflow to infinity).
Methods whose bodies are not in the header are modelled from the specification,
in its exact arithmetic.  NaN and infinite member values are outside the model.
-/

namespace AC_PID

/-- Compiled-in parameter defaults of one PID (`AC_PID::Defaults`), with the
fields the header initialises by name. -/
structure Defaults where
  p : ℚ
  i : ℚ
  d : ℚ
  ff : ℚ
  imax : ℚ
  filt_T_hz : ℚ
  filt_E_hz : ℚ
  filt_D_hz : ℚ
  srmax : ℚ
  srtau : ℚ
  deriving DecidableEq

end AC_PID

/-- One PID controller object: its current parameters and its integrator. -/
structure AC_PID where
  _kp : ℚ
  _ki : ℚ
  _kd : ℚ
  _kff : ℚ
  _kimax : ℚ
  _filt_T_hz : ℚ
  _filt_E_hz : ℚ
  _filt_D_hz : ℚ
  _slew_rate_max : ℚ
  _slew_rate_tau : ℚ
  _integrator : ℚ
  deriving DecidableEq

/-- Modelled from the spec: the `AC_PID` constructor (its body is not in the
header).  A PID built from `Defaults` starts with every parameter at its
compiled-in default and a zero integrator. -/
def AC_PID.ofDefaults (d : AC_PID.Defaults) : AC_PID :=
  { _kp := d.p, _ki := d.i, _kd := d.d, _kff := d.ff, _kimax := d.imax,
    _filt_T_hz := d.filt_T_hz, _filt_E_hz := d.filt_E_hz, _filt_D_hz := d.filt_D_hz,
    _slew_rate_max := d.srmax, _slew_rate_tau := d.srtau, _integrator := 0 }

/-! ## Default rate controller PID gains (the `#define`s of the header) -/

def AC_ATC_MULTI_RATE_RP_P : ℚ := 0.135
def AC_ATC_MULTI_RATE_RP_I : ℚ := 0.135
def AC_ATC_MULTI_RATE_RP_D : ℚ := 0.0036
def AC_ATC_MULTI_RATE_RP_IMAX : ℚ := 0.5
def AC_ATC_MULTI_RATE_RPY_FILT_HZ : ℚ := 20.0
def AC_ATC_MULTI_RATE_YAW_P : ℚ := 0.180
def AC_ATC_MULTI_RATE_YAW_I : ℚ := 0.018
def AC_ATC_MULTI_RATE_YAW_D : ℚ := 0.0
def AC_ATC_MULTI_RATE_YAW_IMAX : ℚ := 0.5
def AC_ATC_MULTI_RATE_YAW_FILT_HZ : ℚ := 2.5

/-- The `AC_PID::Defaults` initialiser of `_pid_rate_roll`. -/
def _pid_rate_roll_defaults : AC_PID.Defaults :=
  { p := AC_ATC_MULTI_RATE_RP_P
    i := AC_ATC_MULTI_RATE_RP_I
    d := AC_ATC_MULTI_RATE_RP_D
    ff := 0.0
    imax := AC_ATC_MULTI_RATE_RP_IMAX
    filt_T_hz := AC_ATC_MULTI_RATE_RPY_FILT_HZ
    filt_E_hz := 0.0
    filt_D_hz := AC_ATC_MULTI_RATE_RPY_FILT_HZ
    srmax := 0
    srtau := 1.0 }

/-- The `AC_PID::Defaults` initialiser of `_pid_rate_pitch`. -/
def _pid_rate_pitch_defaults : AC_PID.Defaults :=
  { p := AC_ATC_MULTI_RATE_RP_P
    i := AC_ATC_MULTI_RATE_RP_I
    d := AC_ATC_MULTI_RATE_RP_D
    ff := 0.0
    imax := AC_ATC_MULTI_RATE_RP_IMAX
    filt_T_hz := AC_ATC_MULTI_RATE_RPY_FILT_HZ
    filt_E_hz := 0.0
    filt_D_hz := AC_ATC_MULTI_RATE_RPY_FILT_HZ
    srmax := 0
    srtau := 1.0 }

/-- The `AC_PID::Defaults` initialiser of `_pid_rate_yaw`. -/
def _pid_rate_yaw_defaults : AC_PID.Defaults :=
  { p := AC_ATC_MULTI_RATE_YAW_P
    i := AC_ATC_MULTI_RATE_YAW_I
    d := AC_ATC_MULTI_RATE_YAW_D
    ff := 0.0
    imax := AC_ATC_MULTI_RATE_YAW_IMAX
    filt_T_hz := AC_ATC_MULTI_RATE_RPY_FILT_HZ
    filt_E_hz := AC_ATC_MULTI_RATE_YAW_FILT_HZ
    filt_D_hz := AC_ATC_MULTI_RATE_RPY_FILT_HZ
    srmax := 0
    srtau := 1.0 }

/-! ## IEEE-754 binary32 arithmetic -/

/-- The result of a binary32 operation on finite operands: a finite value, or an
infinity on overflow. -/
inductive Binary32 where
  | finite (value : ℚ) : Binary32
  | pos_inf : Binary32
  | neg_inf : Binary32
  deriving DecidableEq

/-- The exponent of the binary32 grid at `x`: values in the binade
`[2 ^ k, 2 ^ (k + 1))` carry a 24-bit significand, so the grid spacing is
`2 ^ (k - 23)`; below the normal range the spacing stays `2 ^ (-149)`. -/
def binary32_exponent (x : ℚ) : ℤ :=
  max (-149) (Int.log 2 |x| - 23)

/-- Round to the nearest integer, ties to the even one. -/
def round_half_even (y : ℚ) : ℤ :=
  if y - ⌊y⌋ < 1 / 2 then ⌊y⌋
  else if 1 / 2 < y - ⌊y⌋ then ⌊y⌋ + 1
  else if ⌊y⌋ % 2 = 0 then ⌊y⌋
  else ⌊y⌋ + 1

/-- Round an exact value to binary32, round-to-nearest ties-to-even: the nearest
multiple of the grid spacing at `x`; a rounded magnitude of `2 ^ 128` or more
overflows to the infinity of its sign. -/
def round_binary32 (x : ℚ) : Binary32 :=
  if 2 ^ 128 ≤ (round_half_even (x / 2 ^ binary32_exponent x) : ℚ) * 2 ^ binary32_exponent x then
    Binary32.pos_inf
  else if (round_half_even (x / 2 ^ binary32_exponent x) : ℚ) * 2 ^ binary32_exponent x
      ≤ -2 ^ 128 then
    Binary32.neg_inf
  else
    Binary32.finite
      ((round_half_even (x / 2 ^ binary32_exponent x) : ℚ) * 2 ^ binary32_exponent x)

/-- A rational is the value of a finite binary32 number exactly when rounding
leaves it unchanged. -/
def is_binary32 (x : ℚ) : Prop :=
  round_binary32 x = Binary32.finite x

instance (x : ℚ) : Decidable (is_binary32 x) :=
  inferInstanceAs (Decidable (round_binary32 x = Binary32.finite x))

/-- The C++ `float` product `a * b` of two finite values: the exact product,
rounded once. -/
def float_mul (a b : ℚ) : Binary32 :=
  round_binary32 (a * b)

/-- The C++ comparison `a < b` of a finite `a` with the result of an operation. -/
def float_lt (a : ℚ) : Binary32 → Bool
  | Binary32.finite v => decide (a < v)
  | Binary32.pos_inf => true
  | Binary32.neg_inf => false

/-! ## The controller object -/

/-- Data members of `AC_AttitudeControl_Multi` that the header declares or its
inline methods touch.  `_throttle_rpy_mix_desired` and `_throttle_rpy_mix` are
inherited from the base class `AC_AttitudeControl`; the header assigns and reads
them by these names.  The reference `_motors_multi` is not read by any modelled
method and is left out. -/
structure AC_AttitudeControl_Multi where
  _throttle_rpy_mix_desired : ℚ
  _throttle_rpy_mix : ℚ
  _pid_rate_roll : AC_PID
  _pid_rate_pitch : AC_PID
  _pid_rate_yaw : AC_PID
  _thr_mix_man : ℚ
  _thr_mix_min : ℚ
  _thr_mix_max : ℚ
  _throttle_gain_boost : ℚ
  deriving DecidableEq

namespace AC_AttitudeControl_Multi

/-- Header line 69:
`void set_throttle_mix_min() override { _throttle_rpy_mix_desired = _thr_mix_min; }` -/
def set_throttle_mix_min (s : AC_AttitudeControl_Multi) : AC_AttitudeControl_Multi :=
  { s with _throttle_rpy_mix_desired := s._thr_mix_min }

/-- Header line 70:
`void set_throttle_mix_man() override { _throttle_rpy_mix_desired = _thr_mix_man; }` -/
def set_throttle_mix_man (s : AC_AttitudeControl_Multi) : AC_AttitudeControl_Multi :=
  { s with _throttle_rpy_mix_desired := s._thr_mix_man }

/-- Header line 72:
`void set_throttle_mix_value(float value) override
   { _throttle_rpy_mix_desired = _throttle_rpy_mix = value; }` -/
def set_throttle_mix_value (s : AC_AttitudeControl_Multi) (value : ℚ) :
    AC_AttitudeControl_Multi :=
  { s with _throttle_rpy_mix := value, _throttle_rpy_mix_desired := value }

/-- Header line 73:
`float get_throttle_mix(void) const override { return _throttle_rpy_mix; }` -/
def get_throttle_mix (s : AC_AttitudeControl_Multi) : ℚ :=
  s._throttle_rpy_mix

/-- Header line 76:
`bool is_throttle_mix_min() const override
   { return (_throttle_rpy_mix < 1.25f * _thr_mix_min); }`
The product is a `float` product, rounded to binary32 before the comparison. -/
def is_throttle_mix_min (s : AC_AttitudeControl_Multi) : Bool :=
  float_lt s._throttle_rpy_mix (float_mul 1.25 s._thr_mix_min)

/-- The three accessors `get_rate_roll_pid`, `get_rate_pitch_pid`,
`get_rate_yaw_pid` (header lines 50-55). -/
def get_rate_roll_pid (s : AC_AttitudeControl_Multi) : AC_PID := s._pid_rate_roll
def get_rate_pitch_pid (s : AC_AttitudeControl_Multi) : AC_PID := s._pid_rate_pitch
def get_rate_yaw_pid (s : AC_AttitudeControl_Multi) : AC_PID := s._pid_rate_yaw

end AC_AttitudeControl_Multi

/-- One call of an inline mix setter: which method, and its argument. -/
inductive MixCall where
  | mix_min : MixCall
  | mix_man : MixCall
  | mix_value (value : ℚ) : MixCall
  deriving DecidableEq

namespace MixCall

/-- Perform one setter call on the controller. -/
def apply (s : AC_AttitudeControl_Multi) : MixCall → AC_AttitudeControl_Multi
  | mix_min => s.set_throttle_mix_min
  | mix_man => s.set_throttle_mix_man
  | mix_value v => s.set_throttle_mix_value v

/-- Perform a sequence of setter calls, first call first. -/
def applyAll (s : AC_AttitudeControl_Multi) (cs : List MixCall) : AC_AttitudeControl_Multi :=
  cs.foldl apply s

/-- The value a call names as the mix target, read in state `s`. -/
def target (s : AC_AttitudeControl_Multi) : MixCall → ℚ
  | mix_min => s._thr_mix_min
  | mix_man => s._thr_mix_man
  | mix_value v => v

end MixCall

/-! ## Methods whose bodies are not in the header -/

/-- Modelled from the spec: `constrain_float` of the maths library, which is
not in the header: the value clamped to `[low, high]`. -/
def constrain_float (amt low high : ℚ) : ℚ :=
  if amt < low then low else if amt > high then high else amt

/-- Modelled from the spec: the integrator update of `AC_PID`, whose source is
not in the header.  "the integral term accumulates `I*error*dt` clamped to
`[-imax, imax]`"; "a zero or negative `dt` ... must [be treated] as a no-op". -/
def AC_PID.update_i (pid : AC_PID) (error dt : ℚ) : AC_PID :=
  if dt ≤ 0 then pid
  else
    { pid with
      _integrator :=
        constrain_float (pid._integrator + pid._ki * error * dt) (-pid._kimax) pid._kimax }

/-- Modelled from the spec: `AC_PID::get_i`, not in the header: the integrator
term of a PID. -/
def AC_PID.get_i (pid : AC_PID) : ℚ := pid._integrator

/-- Run `n` ticks of the integrator with the same error and tick time. -/
def AC_PID.hold_error (pid : AC_PID) (error dt : ℚ) : Nat → AC_PID
  | 0 => pid
  | n + 1 => (AC_PID.hold_error pid error dt n).update_i error dt

/-- Modelled from the spec: the filter-cutoff rule of the parameter validator:
"all filter cutoff frequencies are strictly positive (reset to compiled-in
defaults otherwise)". -/
def sanity_cutoff (hz dflt : ℚ) : ℚ :=
  if 0 < hz then hz else dflt

/-- Modelled from the spec: the per-axis part of `parameter_sanity_check`, whose
body is not in the header: cutoffs by `sanity_cutoff`, "`imax ≥ 0` and gains
... non-negative" by clamping at zero. -/
def AC_PID.sanity_check (dflt : AC_PID.Defaults) (pid : AC_PID) : AC_PID :=
  { pid with
    _kp := max pid._kp 0
    _ki := max pid._ki 0
    _kd := max pid._kd 0
    _kff := max pid._kff 0
    _kimax := max pid._kimax 0
    _filt_T_hz := sanity_cutoff pid._filt_T_hz dflt.filt_T_hz
    _filt_E_hz := sanity_cutoff pid._filt_E_hz dflt.filt_E_hz
    _filt_D_hz := sanity_cutoff pid._filt_D_hz dflt.filt_D_hz }

/-- The spec leaves the way the validator restores `mix_min ≤ mix_man ≤ mix_max`
open: "reordering or clamping if violated". -/
inductive MixOrderPolicy where
  | reorder : MixOrderPolicy
  | clamp : MixOrderPolicy
  deriving DecidableEq

namespace AC_AttitudeControl_Multi

/-- Modelled from the spec: `update_throttle_rpy_mix` (declared at header line
99, body not in the header), the spec's `advance(dt)`: it "moves `current_mix`
toward `desired_mix` by an amount bounded by `dt` divided by the configured time
constant, clamped so it never overshoots"; a non-positive `dt` is a no-op.
`tc` is the configured time constant. -/
def update_throttle_rpy_mix (s : AC_AttitudeControl_Multi) (dt tc : ℚ) :
    AC_AttitudeControl_Multi :=
  if dt ≤ 0 then s
  else if s._throttle_rpy_mix < s._throttle_rpy_mix_desired then
    { s with
      _throttle_rpy_mix :=
        s._throttle_rpy_mix + min (dt / tc) (s._throttle_rpy_mix_desired - s._throttle_rpy_mix) }
  else if s._throttle_rpy_mix > s._throttle_rpy_mix_desired then
    { s with
      _throttle_rpy_mix :=
        s._throttle_rpy_mix - min (dt / tc) (s._throttle_rpy_mix - s._throttle_rpy_mix_desired) }
  else s

/-- Modelled from the spec: the mix-preset part of `parameter_sanity_check`
(declared at header line 84, body not in the header): "enforces
`mix_min ≤ mix_man ≤ mix_max` (reordering or clamping if violated)".
Reordering sorts the three presets; clamping keeps `mix_min`, raises `mix_max`
to at least `mix_min` and clamps `mix_man` between them. -/
def sanity_check_mix (policy : MixOrderPolicy) (s : AC_AttitudeControl_Multi) :
    AC_AttitudeControl_Multi :=
  if s._thr_mix_min ≤ s._thr_mix_man ∧ s._thr_mix_man ≤ s._thr_mix_max then s
  else
    match policy with
    | MixOrderPolicy.reorder =>
      { s with
        _thr_mix_min := min (min s._thr_mix_min s._thr_mix_man) s._thr_mix_max
        _thr_mix_man :=
          max (min s._thr_mix_min s._thr_mix_man)
            (min (max s._thr_mix_min s._thr_mix_man) s._thr_mix_max)
        _thr_mix_max := max (max s._thr_mix_min s._thr_mix_man) s._thr_mix_max }
    | MixOrderPolicy.clamp =>
      { s with
        _thr_mix_man :=
          constrain_float s._thr_mix_man s._thr_mix_min (max s._thr_mix_max s._thr_mix_min)
        _thr_mix_max := max s._thr_mix_max s._thr_mix_min }

/-- Modelled from the spec: `parameter_sanity_check` (declared at header line
84, body not in the header), the spec's `sanity_check()`: the mix presets are
put in order, and each axis PID is checked against the compiled-in defaults the
header gives that axis. -/
def parameter_sanity_check (policy : MixOrderPolicy) (s : AC_AttitudeControl_Multi) :
    AC_AttitudeControl_Multi :=
  { sanity_check_mix policy s with
    _pid_rate_roll := s._pid_rate_roll.sanity_check _pid_rate_roll_defaults
    _pid_rate_pitch := s._pid_rate_pitch.sanity_check _pid_rate_pitch_defaults
    _pid_rate_yaw := s._pid_rate_yaw.sanity_check _pid_rate_yaw_defaults }

/-- The controller as the header builds it: each rate PID from its `Defaults`
initialiser.  The mix parameters get their values from the parameter table,
which is not in the header; they are arguments here. -/
def construct (thr_mix_man thr_mix_min thr_mix_max gain_boost : ℚ) :
    AC_AttitudeControl_Multi :=
  { _throttle_rpy_mix_desired := 0
    _throttle_rpy_mix := 0
    _pid_rate_roll := AC_PID.ofDefaults _pid_rate_roll_defaults
    _pid_rate_pitch := AC_PID.ofDefaults _pid_rate_pitch_defaults
    _pid_rate_yaw := AC_PID.ofDefaults _pid_rate_yaw_defaults
    _thr_mix_man := thr_mix_man
    _thr_mix_min := thr_mix_min
    _thr_mix_max := thr_mix_max
    _throttle_gain_boost := gain_boost }

/-- A state with `_thr_mix_min = 0.1f` (the binary32 value `13421773 / 2 ^ 27`)
and the current mix snapped to `0.125f`. -/
def tenth_state : AC_AttitudeControl_Multi :=
  (construct 0.5 (13421773 / 134217728) 0.75 1).set_throttle_mix_value (1 / 8)

/-- A state whose `_thr_mix_min` is the smallest positive binary32 value,
`2 ^ (-149)`. -/
def subnormal_state : AC_AttitudeControl_Multi :=
  construct 0.5 (2 ^ (-149 : ℤ)) 0.75 1

/-- A state with `_thr_mix_min = 0.5f`, for which `1.25f * _thr_mix_min` is the
binary32 value `0.625f`. -/
def half_state : AC_AttitudeControl_Multi :=
  construct 0.5 0.5 0.75 1

/-- Every member other than `_throttle_rpy_mix_desired` is the same in `r` as in `s`. -/
def same_except_desired (s r : AC_AttitudeControl_Multi) : Prop :=
  r._throttle_rpy_mix = s._throttle_rpy_mix ∧
  r._pid_rate_roll = s._pid_rate_roll ∧
  r._pid_rate_pitch = s._pid_rate_pitch ∧
  r._pid_rate_yaw = s._pid_rate_yaw ∧
  r._thr_mix_man = s._thr_mix_man ∧
  r._thr_mix_min = s._thr_mix_min ∧
  r._thr_mix_max = s._thr_mix_max ∧
  r._throttle_gain_boost = s._throttle_gain_boost

/-- All nine filter cutoffs (target, error, derivative of roll, pitch, yaw) are
strictly positive. -/
def cutoffs_positive (s : AC_AttitudeControl_Multi) : Prop :=
  (0 < s._pid_rate_roll._filt_T_hz ∧ 0 < s._pid_rate_roll._filt_E_hz ∧
    0 < s._pid_rate_roll._filt_D_hz) ∧
  (0 < s._pid_rate_pitch._filt_T_hz ∧ 0 < s._pid_rate_pitch._filt_E_hz ∧
    0 < s._pid_rate_pitch._filt_D_hz) ∧
  (0 < s._pid_rate_yaw._filt_T_hz ∧ 0 < s._pid_rate_yaw._filt_E_hz ∧
    0 < s._pid_rate_yaw._filt_D_hz)

end AC_AttitudeControl_Multi

/-- The three default cutoffs of one `Defaults` initialiser are strictly positive. -/
def AC_PID.Defaults.cutoffs_positive (d : AC_PID.Defaults) : Prop :=
  0 < d.filt_T_hz ∧ 0 < d.filt_E_hz ∧ 0 < d.filt_D_hz

open AC_AttitudeControl_Multi

/-! ## Helper lemmas -/

theorem constrain_float_bounds (amt low high : ℚ) (h : low ≤ high) :
    low ≤ constrain_float amt low high ∧ constrain_float amt low high ≤ high := by
  unfold constrain_float
  split_ifs with h1 h2
  · exact ⟨le_refl _, h⟩
  · exact ⟨h, le_refl _⟩
  · exact ⟨not_lt.mp h1, not_lt.mp h2⟩

theorem MixCall.apply_presets (s : AC_AttitudeControl_Multi) (c : MixCall) :
    (MixCall.apply s c)._thr_mix_min = s._thr_mix_min ∧
    (MixCall.apply s c)._thr_mix_man = s._thr_mix_man := by
  cases c <;> exact ⟨rfl, rfl⟩

theorem MixCall.applyAll_presets (cs : List MixCall) (s : AC_AttitudeControl_Multi) :
    (MixCall.applyAll s cs)._thr_mix_min = s._thr_mix_min ∧
    (MixCall.applyAll s cs)._thr_mix_man = s._thr_mix_man := by
  induction cs generalizing s with
  | nil => exact ⟨rfl, rfl⟩
  | cons c cs ih =>
    have h := ih (MixCall.apply s c)
    have hc := MixCall.apply_presets s c
    simp only [MixCall.applyAll, List.foldl_cons] at h ⊢
    exact ⟨h.1.trans hc.1, h.2.trans hc.2⟩

/-! ### Rounding to binary32 -/

theorem round_half_even_error (y : ℚ) : |(round_half_even y : ℚ) - y| ≤ 1 / 2 := by
  have h1 : (⌊y⌋ : ℚ) ≤ y := Int.floor_le y
  have h2 : y < ⌊y⌋ + 1 := Int.lt_floor_add_one y
  unfold round_half_even
  rw [abs_le]
  split_ifs with a b c
  · constructor <;> linarith
  · push_cast; constructor <;> linarith
  · constructor <;> linarith
  · push_cast; constructor <;> linarith

theorem binary32_exponent_ge (x : ℚ) : -149 ≤ binary32_exponent x :=
  le_max_left _ _

theorem binary32_exponent_cases (x : ℚ) (hx : 0 < |x|) :
    binary32_exponent x = -149 ∨ (2 : ℚ) ^ (binary32_exponent x + 23) ≤ |x| := by
  unfold binary32_exponent
  rcases le_total (Int.log 2 |x| - 23) (-149) with h | h
  · left; exact max_eq_left h
  · right
    rw [max_eq_right h, sub_add_cancel]
    exact_mod_cast Int.zpow_log_le_self (by norm_num) hx

theorem round_binary32_error (x : ℚ) :
    |(round_half_even (x / 2 ^ binary32_exponent x) : ℚ) * 2 ^ binary32_exponent x - x| ≤
      2 ^ binary32_exponent x / 2 := by
  have hp : (0 : ℚ) < 2 ^ binary32_exponent x := zpow_pos (by norm_num) _
  have h := round_half_even_error (x / 2 ^ binary32_exponent x)
  have e : (round_half_even (x / 2 ^ binary32_exponent x) : ℚ) * 2 ^ binary32_exponent x - x =
      ((round_half_even (x / 2 ^ binary32_exponent x) : ℚ) - x / 2 ^ binary32_exponent x) *
        2 ^ binary32_exponent x := by
    field_simp
  rw [e, abs_mul, abs_of_pos hp]
  calc _ ≤ 1 / 2 * 2 ^ binary32_exponent x := mul_le_mul_of_nonneg_right h hp.le
    _ = _ := by ring

/-- For the product `1.25 * x`, twice the spacing of the binary32 grid at the product is
below `|x|` in a normal binade, and equals `2 ^ (-148)` in the subnormal range. -/
theorem product_spacing (x : ℚ) (hx : 0 < |x|) :
    2 * (2 : ℚ) ^ binary32_exponent (5 / 4 * x) = 2 ^ (-148 : ℤ) ∨
      2 * (2 : ℚ) ^ binary32_exponent (5 / 4 * x) < |x| := by
  have hy : 0 < |5 / 4 * x| := by
    rw [abs_mul]; positivity
  have hp : (0 : ℚ) < 2 ^ binary32_exponent (5 / 4 * x) := zpow_pos (by norm_num) _
  rcases binary32_exponent_cases (5 / 4 * x) hy with h | h
  · left
    rw [h]; norm_num
  · right
    rw [zpow_add₀ (by norm_num : (2 : ℚ) ≠ 0)] at h
    have h23 : (2 : ℚ) ^ (23 : ℤ) = 8388608 := by norm_num
    rw [h23, abs_mul] at h
    have h54 : |(5 / 4 : ℚ)| = 5 / 4 := abs_of_pos (by norm_num)
    rw [h54] at h
    nlinarith

theorem float_lt_product_of_large (x : ℚ) (hx : (2 : ℚ) ^ (-148 : ℤ) < x) :
    float_lt x (float_mul (5 / 4) x) = true := by
  have h148 : (0 : ℚ) < 2 ^ (-148 : ℤ) := zpow_pos (by norm_num) _
  have hx0 : 0 < x := h148.trans hx
  have habs : |x| = x := abs_of_pos hx0
  have hs : 2 * (2 : ℚ) ^ binary32_exponent (5 / 4 * x) < x := by
    rcases product_spacing x (by rw [habs]; exact hx0) with h | h
    · rw [h]; exact hx
    · rw [habs] at h; exact h
  have herr := (abs_le.mp (round_binary32_error (5 / 4 * x))).1
  have hr : x < (round_half_even (5 / 4 * x / 2 ^ binary32_exponent (5 / 4 * x)) : ℚ) *
      2 ^ binary32_exponent (5 / 4 * x) := by linarith
  unfold float_mul round_binary32
  split_ifs with a b
  · rfl
  · exfalso
    have : (0 : ℚ) < 2 ^ 128 := by norm_num
    linarith
  · exact decide_eq_true hr

theorem float_lt_product_of_small (x : ℚ) (hx : x ≤ -(2 : ℚ) ^ (-148 : ℤ)) :
    float_lt x (float_mul (5 / 4) x) = false := by
  have h148 : (0 : ℚ) < 2 ^ (-148 : ℤ) := zpow_pos (by norm_num) _
  have hx0 : x < 0 := by linarith
  have habs : |x| = -x := abs_of_neg hx0
  have hs : 2 * (2 : ℚ) ^ binary32_exponent (5 / 4 * x) ≤ -x := by
    rcases product_spacing x (by rw [habs]; linarith) with h | h
    · rw [h]; linarith
    · rw [habs] at h; exact h.le
  have herr := (abs_le.mp (round_binary32_error (5 / 4 * x))).2
  have hr : (round_half_even (5 / 4 * x / 2 ^ binary32_exponent (5 / 4 * x)) : ℚ) *
      2 ^ binary32_exponent (5 / 4 * x) ≤ x := by linarith
  unfold float_mul round_binary32
  split_ifs with a b
  · exfalso
    have : (0 : ℚ) < 2 ^ 128 := by norm_num
    linarith
  · rfl
  · exact decide_eq_false (not_lt.mpr hr)

/-- A nonzero value below `2 ^ (-126)` in magnitude lies in the subnormal range. -/
theorem binary32_exponent_subnormal (x : ℚ) (hx : |x| < (2 : ℚ) ^ (-126 : ℤ)) :
    binary32_exponent x = -149 ∨ x = 0 := by
  rcases eq_or_ne x 0 with h0 | h0
  · right; exact h0
  · left
    have hpos : 0 < |x| := abs_pos.mpr h0
    have hlog : Int.log 2 |x| < -126 := by
      rw [← Int.lt_zpow_iff_log_lt (by norm_num) hpos]
      exact_mod_cast hx
    unfold binary32_exponent
    exact max_eq_left (by omega)

/-- The exponent of a value in the binade `[2 ^ k, 2 ^ (k + 1))`. -/
theorem binary32_exponent_of_binade (x : ℚ) (k : ℤ) (h1 : (2 : ℚ) ^ k ≤ |x|)
    (h2 : |x| < (2 : ℚ) ^ (k + 1)) : binary32_exponent x = max (-149) (k - 23) := by
  have hpos : 0 < |x| := lt_of_lt_of_le (zpow_pos (by norm_num) _) h1
  have ha : k ≤ Int.log 2 |x| := by
    rw [← Int.zpow_le_iff_le_log (by norm_num) hpos]
    exact_mod_cast h1
  have hb : Int.log 2 |x| < k + 1 := by
    rw [← Int.lt_zpow_iff_log_lt (by norm_num) hpos]
    exact_mod_cast h2
  have : Int.log 2 |x| = k := by omega
  unfold binary32_exponent
  rw [this]

theorem round_half_even_of_floor (y : ℚ) (f : ℤ) (h1 : (f : ℚ) ≤ y) (h2 : y < f + 1) :
    round_half_even y =
      if y - f < 1 / 2 then f
      else if 1 / 2 < y - f then f + 1
      else if f % 2 = 0 then f
      else f + 1 := by
  have hf : ⌊y⌋ = f := Int.floor_eq_iff.mpr ⟨h1, h2⟩
  unfold round_half_even
  rw [hf]

theorem round_half_even_intCast (n : ℤ) : round_half_even (n : ℚ) = n := by
  rw [round_half_even_of_floor (n : ℚ) n (le_refl _) (by linarith)]
  simp

theorem round_binary32_eq_finite (x r : ℚ) (e n : ℤ) (he : binary32_exponent x = e)
    (hn : round_half_even (x / 2 ^ e) = n) (hr : (n : ℚ) * 2 ^ e = r)
    (hlo : -2 ^ 128 < r) (hhi : r < 2 ^ 128) : round_binary32 x = Binary32.finite r := by
  unfold round_binary32
  rw [he, hn, hr]
  rw [if_neg (not_le.mpr hhi), if_neg (not_le.mpr hlo)]

/-- The binary32 values in `(-2 ^ (-148), 2 ^ (-148)]`. -/
theorem is_binary32_tiny (x : ℚ) (hb : is_binary32 x) (hlo : -(2 : ℚ) ^ (-148 : ℤ) < x)
    (hhi : x ≤ (2 : ℚ) ^ (-148 : ℤ)) :
    x = -(2 : ℚ) ^ (-149 : ℤ) ∨ x = 0 ∨ x = (2 : ℚ) ^ (-149 : ℤ) ∨ x = (2 : ℚ) ^ (-148 : ℤ) := by
  have habs : |x| < (2 : ℚ) ^ (-126 : ℤ) := by
    rw [abs_lt]
    constructor
    · have : -(2 : ℚ) ^ (-126 : ℤ) ≤ -(2 : ℚ) ^ (-148 : ℤ) := by norm_num
      linarith
    · have : (2 : ℚ) ^ (-148 : ℤ) < (2 : ℚ) ^ (-126 : ℤ) := by norm_num
      linarith
  rcases binary32_exponent_subnormal x habs with he | h0
  · unfold is_binary32 round_binary32 at hb
    rw [he] at hb
    split_ifs at hb with a b
    have hx : (round_half_even (x / 2 ^ (-149 : ℤ)) : ℚ) * 2 ^ (-149 : ℤ) = x :=
      Binary32.finite.inj hb
    generalize round_half_even (x / 2 ^ (-149 : ℤ)) = n at hx
    have hp : (0 : ℚ) < 2 ^ (-149 : ℤ) := zpow_pos (by norm_num) _
    have e148 : (2 : ℚ) ^ (-148 : ℤ) = 2 * 2 ^ (-149 : ℤ) := by norm_num
    rw [e148, ← hx] at hlo hhi
    have h1 : (-2 : ℚ) < n := by
      by_contra hc
      have : (n : ℚ) * 2 ^ (-149 : ℤ) ≤ -2 * 2 ^ (-149 : ℤ) :=
        mul_le_mul_of_nonneg_right (not_lt.mp hc) hp.le
      linarith
    have h2 : (n : ℚ) ≤ 2 := by
      by_contra hc
      have : 2 * (2 : ℚ) ^ (-149 : ℤ) < (n : ℚ) * 2 ^ (-149 : ℤ) :=
        mul_lt_mul_of_pos_right (not_le.mp hc) hp
      linarith
    have h1z : -2 < n := by exact_mod_cast h1
    have h2z : n ≤ 2 := by exact_mod_cast h2
    rw [e148, ← hx]
    interval_cases n
    · left; norm_num
    · right; left; norm_num
    · right; right; left; norm_num
    · right; right; right; norm_num
  · right; left; exact h0

theorem float_lt_product_at_smallest :
    float_lt ((2 : ℚ) ^ (-149 : ℤ)) (float_mul (5 / 4) ((2 : ℚ) ^ (-149 : ℤ))) = false := by
  have he : binary32_exponent (5 / 4 * (2 : ℚ) ^ (-149 : ℤ)) = -149 := by
    rcases binary32_exponent_subnormal (5 / 4 * (2 : ℚ) ^ (-149 : ℤ))
      (by rw [abs_of_pos (by positivity)]; norm_num) with h | h
    · exact h
    · exfalso; norm_num at h
  have hn : round_half_even (5 / 4 * (2 : ℚ) ^ (-149 : ℤ) / 2 ^ (-149 : ℤ)) = 1 := by
    rw [round_half_even_of_floor _ 1 (by norm_num) (by norm_num)]
    norm_num
  unfold float_mul
  rw [round_binary32_eq_finite _ ((2 : ℚ) ^ (-149 : ℤ)) (-149) 1 he hn (by norm_num)
    (by norm_num) (by norm_num)]
  simp [float_lt]

theorem float_lt_product_at_second_smallest :
    float_lt ((2 : ℚ) ^ (-148 : ℤ)) (float_mul (5 / 4) ((2 : ℚ) ^ (-148 : ℤ))) = false := by
  have he : binary32_exponent (5 / 4 * (2 : ℚ) ^ (-148 : ℤ)) = -149 := by
    rcases binary32_exponent_subnormal (5 / 4 * (2 : ℚ) ^ (-148 : ℤ))
      (by rw [abs_of_pos (by positivity)]; norm_num) with h | h
    · exact h
    · exfalso; norm_num at h
  have hn : round_half_even (5 / 4 * (2 : ℚ) ^ (-148 : ℤ) / 2 ^ (-149 : ℤ)) = 2 := by
    rw [round_half_even_of_floor _ 2 (by norm_num) (by norm_num)]
    norm_num
  unfold float_mul
  rw [round_binary32_eq_finite _ ((2 : ℚ) ^ (-148 : ℤ)) (-149) 2 he hn (by norm_num)
    (by norm_num) (by norm_num)]
  simp [float_lt]

theorem float_lt_product_at_neg_smallest :
    float_lt (-(2 : ℚ) ^ (-149 : ℤ)) (float_mul (5 / 4) (-(2 : ℚ) ^ (-149 : ℤ))) = false := by
  have he : binary32_exponent (5 / 4 * -(2 : ℚ) ^ (-149 : ℤ)) = -149 := by
    rcases binary32_exponent_subnormal (5 / 4 * -(2 : ℚ) ^ (-149 : ℤ))
      (by rw [abs_lt]; constructor <;> norm_num) with h | h
    · exact h
    · exfalso; norm_num at h
  have hn : round_half_even (5 / 4 * -(2 : ℚ) ^ (-149 : ℤ) / 2 ^ (-149 : ℤ)) = -1 := by
    rw [round_half_even_of_floor _ (-2) (by norm_num) (by norm_num)]
    norm_num
  unfold float_mul
  rw [round_binary32_eq_finite _ (-(2 : ℚ) ^ (-149 : ℤ)) (-149) (-1) he hn (by norm_num)
    (by norm_num) (by norm_num)]
  simp [float_lt]

theorem round_binary32_zero : round_binary32 0 = Binary32.finite 0 := by
  have hn : round_half_even ((0 : ℚ) / 2 ^ binary32_exponent 0) = 0 := by
    rw [zero_div]
    exact_mod_cast round_half_even_intCast 0
  exact round_binary32_eq_finite 0 0 (binary32_exponent 0) 0 rfl hn (by simp) (by norm_num)
    (by norm_num)

/-- A value `n * 2 ^ (k - 23)` in the normal binade `[2 ^ k, 2 ^ (k + 1))`,
`-126 ≤ k ≤ 127`, is a binary32 value. -/
theorem is_binary32_of_normal (x : ℚ) (k n : ℤ) (h1 : (2 : ℚ) ^ k ≤ |x|)
    (h2 : |x| < (2 : ℚ) ^ (k + 1)) (hk : -126 ≤ k) (hk2 : k ≤ 127)
    (hx : x = (n : ℚ) * 2 ^ (k - 23)) : is_binary32 x := by
  have he : binary32_exponent x = k - 23 := by
    rw [binary32_exponent_of_binade x k h1 h2]
    exact max_eq_right (by omega)
  have hp : (0 : ℚ) < 2 ^ (k - 23) := zpow_pos (by norm_num) _
  have hn : round_half_even (x / 2 ^ (k - 23)) = n := by
    have : x / 2 ^ (k - 23) = (n : ℚ) := by
      rw [hx]; field_simp
    rw [this]
    exact round_half_even_intCast n
  have hbig : (2 : ℚ) ^ (k + 1) ≤ 2 ^ (128 : ℤ) :=
    zpow_le_zpow_right₀ (by norm_num) (by omega)
  have h128 : (2 : ℚ) ^ (128 : ℤ) = 2 ^ 128 := by norm_num
  rw [h128] at hbig
  have hab := abs_lt.mp (lt_of_lt_of_le h2 hbig)
  exact round_binary32_eq_finite x x (k - 23) n he hn hx.symm hab.1 hab.2

theorem is_binary32_zero : is_binary32 0 :=
  round_binary32_zero

theorem is_binary32_smallest : is_binary32 ((2 : ℚ) ^ (-149 : ℤ)) := by
  have he : binary32_exponent ((2 : ℚ) ^ (-149 : ℤ)) = -149 := by
    rcases binary32_exponent_subnormal ((2 : ℚ) ^ (-149 : ℤ))
      (by rw [abs_of_pos (by positivity)]; norm_num) with h | h
    · exact h
    · exfalso; norm_num at h
  have hn : round_half_even ((2 : ℚ) ^ (-149 : ℤ) / 2 ^ (-149 : ℤ)) = 1 := by
    rw [round_half_even_of_floor _ 1 (by norm_num) (by norm_num)]
    norm_num
  exact round_binary32_eq_finite _ _ (-149) 1 he hn (by norm_num) (by norm_num) (by norm_num)

/-- For a binary32 value `x`, the test `x < 1.25f * x` succeeds exactly when `x`
exceeds `2 ^ (-148)`. -/
theorem float_lt_product_iff (x : ℚ) (hb : is_binary32 x) :
    float_lt x (float_mul (5 / 4) x) = true ↔ (2 : ℚ) ^ (-148 : ℤ) < x := by
  constructor
  · intro h
    by_contra hc
    have hle : x ≤ (2 : ℚ) ^ (-148 : ℤ) := not_lt.mp hc
    have hfalse : float_lt x (float_mul (5 / 4) x) = false := by
      rcases le_or_lt x (-(2 : ℚ) ^ (-148 : ℤ)) with hs | hs
      · exact float_lt_product_of_small x hs
      · rcases is_binary32_tiny x hb hs hle with e | e | e | e
        · rw [e]; exact float_lt_product_at_neg_smallest
        · rw [e]
          unfold float_mul
          rw [mul_zero, round_binary32_zero]
          simp [float_lt]
        · rw [e]; exact float_lt_product_at_smallest
        · rw [e]; exact float_lt_product_at_second_smallest
    rw [hfalse] at h
    exact Bool.false_ne_true h
  · exact float_lt_product_of_large x

/-! ## The throttle/attitude mix -/

/-- C1 as stated fails: with `_thr_mix_min = 0.1f` and the current mix at
`0.125f`, both binary32 values, the exact product `1.25 * _thr_mix_min` is above
`0.125`, but the binary32 product `1.25f * _thr_mix_min` rounds to `0.125`, so
`is_throttle_mix_min()` returns false although
`_throttle_rpy_mix < 1.25 * _thr_mix_min`. -/
theorem is_throttle_mix_min_not_exact :
    is_binary32 tenth_state._thr_mix_min ∧
    is_binary32 tenth_state._throttle_rpy_mix ∧
    tenth_state._throttle_rpy_mix < 1.25 * tenth_state._thr_mix_min ∧
    tenth_state.is_throttle_mix_min = false ∧
    ¬ (tenth_state.is_throttle_mix_min = true ↔
      tenth_state._throttle_rpy_mix < 1.25 * tenth_state._thr_mix_min) := by
  have hmin : tenth_state._thr_mix_min = 13421773 / 134217728 := rfl
  have hcur : tenth_state._throttle_rpy_mix = 1 / 8 := rfl
  have hlt : tenth_state._throttle_rpy_mix < 1.25 * tenth_state._thr_mix_min := by
    rw [hmin, hcur]; norm_num
  have hprod : round_binary32 (1.25 * (13421773 / 134217728)) = Binary32.finite (1 / 8) := by
    have he : binary32_exponent (1.25 * (13421773 / 134217728)) = -26 := by
      rw [binary32_exponent_of_binade _ (-3)
        (by rw [abs_of_pos (by norm_num)]; norm_num)
        (by rw [abs_of_pos (by norm_num)]; norm_num)]
      norm_num
    have hn : round_half_even (1.25 * (13421773 / 134217728) / 2 ^ (-26 : ℤ)) = 8388608 := by
      rw [round_half_even_of_floor _ 8388608 (by norm_num) (by norm_num)]
      norm_num
    exact round_binary32_eq_finite _ _ (-26) 8388608 he hn (by norm_num) (by norm_num)
      (by norm_num)
  have hfalse : tenth_state.is_throttle_mix_min = false := by
    show float_lt tenth_state._throttle_rpy_mix
      (round_binary32 (1.25 * tenth_state._thr_mix_min)) = false
    rw [hmin, hcur, hprod]
    simp [float_lt]
  refine ⟨?_, ?_, hlt, hfalse, ?_⟩
  · rw [hmin]
    exact is_binary32_of_normal _ (-4) 13421773
      (by rw [abs_of_pos (by norm_num)]; norm_num)
      (by rw [abs_of_pos (by norm_num)]; norm_num) (by norm_num) (by norm_num) (by norm_num)
  · rw [hcur]
    exact is_binary32_of_normal _ (-3) 8388608
      (by rw [abs_of_pos (by norm_num)]; norm_num)
      (by rw [abs_of_pos (by norm_num)]; norm_num) (by norm_num) (by norm_num) (by norm_num)
  · intro h
    rw [h.mpr hlt] at hfalse
    exact Bool.noConfusion hfalse

/-- C1 amended: in every controller state `is_throttle_mix_min()` returns true
if and only if `_throttle_rpy_mix` is below the binary32 product
`1.25f * _thr_mix_min`, that is, the product overflowed to plus infinity or it
rounded to a finite value above `_throttle_rpy_mix`; whenever the exact product
`1.25 * _thr_mix_min` is itself a binary32 value this is
`_throttle_rpy_mix < 1.25 * _thr_mix_min`.  No condition on the sign of
`_thr_mix_min` is needed. -/
theorem is_throttle_mix_min_iff_binary32 (s : AC_AttitudeControl_Multi) :
    (s.is_throttle_mix_min = true ↔
      (float_mul 1.25 s._thr_mix_min = Binary32.pos_inf ∨
        ∃ r : ℚ, float_mul 1.25 s._thr_mix_min = Binary32.finite r ∧
          s._throttle_rpy_mix < r)) ∧
    (is_binary32 (1.25 * s._thr_mix_min) →
      (s.is_throttle_mix_min = true ↔ s._throttle_rpy_mix < 1.25 * s._thr_mix_min)) := by
  constructor
  · unfold is_throttle_mix_min
    cases h : float_mul 1.25 s._thr_mix_min with
    | finite v =>
      simp [float_lt]
    | pos_inf => simp [float_lt]
    | neg_inf => simp [float_lt]
  · intro hb
    unfold is_throttle_mix_min float_mul
    rw [hb]
    exact decide_eq_true_iff

theorem is_throttle_mix_min_iff_binary32_witness :
    is_binary32 (1.25 * half_state._thr_mix_min) ∧
    (half_state.is_throttle_mix_min = true ↔
      half_state._throttle_rpy_mix < 1.25 * half_state._thr_mix_min) :=
  have hb : is_binary32 (1.25 * half_state._thr_mix_min) :=
    is_binary32_of_normal _ (-1) 10485760
      (by
        have e : (1.25 : ℚ) * half_state._thr_mix_min = 5 / 8 := by
          show (1.25 : ℚ) * 0.5 = 5 / 8
          norm_num
        rw [e, abs_of_pos (by norm_num)]; norm_num)
      (by
        have e : (1.25 : ℚ) * half_state._thr_mix_min = 5 / 8 := by
          show (1.25 : ℚ) * 0.5 = 5 / 8
          norm_num
        rw [e, abs_of_pos (by norm_num)]; norm_num)
      (by norm_num) (by norm_num)
      (by
        show (1.25 : ℚ) * 0.5 = _
        norm_num)
  ⟨hb, (is_throttle_mix_min_iff_binary32 half_state).2 hb⟩

/-- C2: after `set_throttle_mix_value(v)` the desired and the current mix both
equal `v`, so they are equal to each other (steady phase) and
`get_throttle_mix()` returns `v` with no slew tick in between. -/
theorem set_throttle_mix_value_snaps (s : AC_AttitudeControl_Multi) (v : ℚ) :
    (s.set_throttle_mix_value v)._throttle_rpy_mix_desired = v ∧
    (s.set_throttle_mix_value v)._throttle_rpy_mix = v ∧
    (s.set_throttle_mix_value v)._throttle_rpy_mix =
      (s.set_throttle_mix_value v)._throttle_rpy_mix_desired ∧
    (s.set_throttle_mix_value v).get_throttle_mix = v :=
  ⟨rfl, rfl, rfl, rfl⟩

/-- C3: `set_throttle_mix_min()` gives the prior state with only the desired mix
replaced by `_thr_mix_min`, `set_throttle_mix_man()` the prior state with only
the desired mix replaced by `_thr_mix_man`; every other member, and with them
`get_throttle_mix()` and `is_throttle_mix_min()`, is unchanged, whereas
`set_throttle_mix_value` does change the current mix. -/
theorem set_throttle_mix_min_man_frame (s : AC_AttitudeControl_Multi) :
    (s.set_throttle_mix_min = { s with _throttle_rpy_mix_desired := s._thr_mix_min } ∧
      s.set_throttle_mix_min._throttle_rpy_mix_desired = s._thr_mix_min ∧
      same_except_desired s s.set_throttle_mix_min ∧
      s.set_throttle_mix_min.get_throttle_mix = s.get_throttle_mix ∧
      s.set_throttle_mix_min.is_throttle_mix_min = s.is_throttle_mix_min) ∧
    (s.set_throttle_mix_man = { s with _throttle_rpy_mix_desired := s._thr_mix_man } ∧
      s.set_throttle_mix_man._throttle_rpy_mix_desired = s._thr_mix_man ∧
      same_except_desired s s.set_throttle_mix_man ∧
      s.set_throttle_mix_man.get_throttle_mix = s.get_throttle_mix ∧
      s.set_throttle_mix_man.is_throttle_mix_min = s.is_throttle_mix_min) ∧
    (s.set_throttle_mix_value (s._throttle_rpy_mix + 1)).get_throttle_mix ≠
      s.get_throttle_mix := by
  refine ⟨⟨rfl, rfl, ⟨rfl, rfl, rfl, rfl, rfl, rfl, rfl, rfl⟩, rfl, rfl⟩,
    ⟨rfl, rfl, ⟨rfl, rfl, rfl, rfl, rfl, rfl, rfl, rfl⟩, rfl, rfl⟩, ?_⟩
  simp [set_throttle_mix_value, get_throttle_mix]

/-- C9 as stated fails: with `_thr_mix_min` the smallest positive binary32
value `2 ^ (-149)`, the product `1.25f * _thr_mix_min` rounds back to
`_thr_mix_min`, so after `set_throttle_mix_value(_thr_mix_min)` the test
`is_throttle_mix_min()` returns false although `_thr_mix_min > 0`. -/
theorem smallest_subnormal_min_not_near_min :
    is_binary32 subnormal_state._thr_mix_min ∧
    0 < subnormal_state._thr_mix_min ∧
    (subnormal_state.set_throttle_mix_value
      subnormal_state._thr_mix_min).is_throttle_mix_min = false ∧
    ¬ ((subnormal_state.set_throttle_mix_value
        subnormal_state._thr_mix_min).is_throttle_mix_min = true ↔
      0 < subnormal_state._thr_mix_min) := by
  have hmin : subnormal_state._thr_mix_min = (2 : ℚ) ^ (-149 : ℤ) := rfl
  have hpos : 0 < subnormal_state._thr_mix_min := by
    rw [hmin]; positivity
  have h125 : (1.25 : ℚ) = 5 / 4 := by norm_num
  have hfalse : (subnormal_state.set_throttle_mix_value
      subnormal_state._thr_mix_min).is_throttle_mix_min = false := by
    show float_lt subnormal_state._thr_mix_min
      (float_mul 1.25 subnormal_state._thr_mix_min) = false
    rw [hmin, h125]
    exact float_lt_product_at_smallest
  refine ⟨?_, hpos, hfalse, ?_⟩
  · rw [hmin]; exact is_binary32_smallest
  · intro h
    rw [h.mpr hpos] at hfalse
    exact Bool.noConfusion hfalse

/-- C9 amended: in every state whose `_thr_mix_min` is a binary32 value, after
`set_throttle_mix_value(_thr_mix_min)` the test `is_throttle_mix_min()` returns
true if and only if `_thr_mix_min > 2 ^ (-148)`, that is, for every positive
`_thr_mix_min` except the two smallest subnormals `2 ^ (-149)` and `2 ^ (-148)`;
and with `_thr_mix_min = 0` it returns false in every state whose current mix is
non-negative. -/
theorem is_throttle_mix_min_at_min (s : AC_AttitudeControl_Multi)
    (hb : is_binary32 s._thr_mix_min) :
    ((s.set_throttle_mix_value s._thr_mix_min).is_throttle_mix_min = true ↔
      (2 : ℚ) ^ (-148 : ℤ) < s._thr_mix_min) ∧
    (s._thr_mix_min = 0 → 0 ≤ s._throttle_rpy_mix → s.is_throttle_mix_min = false) := by
  have h125 : (1.25 : ℚ) = 5 / 4 := by norm_num
  constructor
  · show float_lt s._thr_mix_min (float_mul 1.25 s._thr_mix_min) = true ↔ _
    rw [h125]
    exact float_lt_product_iff s._thr_mix_min hb
  · intro h0 hc
    show float_lt s._throttle_rpy_mix (float_mul 1.25 s._thr_mix_min) = false
    unfold float_mul
    rw [h0, mul_zero, round_binary32_zero]
    exact decide_eq_false (not_lt.mpr hc)

theorem is_throttle_mix_min_at_min_witness :
    is_binary32 (construct 0.5 0 0.75 1)._thr_mix_min ∧
    (construct 0.5 0 0.75 1)._thr_mix_min = 0 ∧
    0 ≤ (construct 0.5 0 0.75 1)._throttle_rpy_mix ∧
    (construct 0.5 0 0.75 1).is_throttle_mix_min = false ∧
    ((((construct 0.5 0 0.75 1).set_throttle_mix_value
        (construct 0.5 0 0.75 1)._thr_mix_min).is_throttle_mix_min = true) ↔
      (2 : ℚ) ^ (-148 : ℤ) < (construct 0.5 0 0.75 1)._thr_mix_min) :=
  ⟨is_binary32_zero, rfl, le_refl _,
    (is_throttle_mix_min_at_min (construct 0.5 0 0.75 1) is_binary32_zero).2 rfl (le_refl _),
    (is_throttle_mix_min_at_min (construct 0.5 0 0.75 1) is_binary32_zero).1⟩

/-- C10: each inline mix setter is idempotent, and after any sequence of setter
calls that ends with the call `c` the desired mix is the target of `c` alone
(`_thr_mix_min`, `_thr_mix_man` or the value passed), whatever the earlier
calls `cs` were. -/
theorem mix_setters_idempotent_last_wins (s : AC_AttitudeControl_Multi) :
    s.set_throttle_mix_min.set_throttle_mix_min = s.set_throttle_mix_min ∧
    s.set_throttle_mix_man.set_throttle_mix_man = s.set_throttle_mix_man ∧
    (∀ v : ℚ, (s.set_throttle_mix_value v).set_throttle_mix_value v =
      s.set_throttle_mix_value v) ∧
    (∀ (cs : List MixCall) (c : MixCall),
      (MixCall.applyAll s (cs ++ [c]))._throttle_rpy_mix_desired = MixCall.target s c) := by
  refine ⟨rfl, rfl, fun _ => rfl, ?_⟩
  intro cs c
  have hp := MixCall.applyAll_presets cs s
  simp only [MixCall.applyAll, List.foldl_append, List.foldl_cons, List.foldl_nil] at hp ⊢
  cases c with
  | mix_min => exact hp.1
  | mix_man => exact hp.2
  | mix_value v => rfl

/-- C4: from any starting state `s` and after any sequence `cs` of mix-target
changes, one slew tick with a positive time constant leaves the desired mix as
it is and puts the current mix between its previous value and the desired mix:
`min(prev, desired) ≤ next ≤ max(prev, desired)`. -/
theorem update_throttle_rpy_mix_no_overshoot (s : AC_AttitudeControl_Multi)
    (cs : List MixCall) (dt tc : ℚ) (htc : 0 < tc) :
    ((MixCall.applyAll s cs).update_throttle_rpy_mix dt tc)._throttle_rpy_mix_desired =
      (MixCall.applyAll s cs)._throttle_rpy_mix_desired ∧
    min (MixCall.applyAll s cs)._throttle_rpy_mix
        (MixCall.applyAll s cs)._throttle_rpy_mix_desired ≤
      ((MixCall.applyAll s cs).update_throttle_rpy_mix dt tc)._throttle_rpy_mix ∧
    ((MixCall.applyAll s cs).update_throttle_rpy_mix dt tc)._throttle_rpy_mix ≤
      max (MixCall.applyAll s cs)._throttle_rpy_mix
        (MixCall.applyAll s cs)._throttle_rpy_mix_desired := by
  generalize MixCall.applyAll s cs = p
  unfold update_throttle_rpy_mix
  split_ifs with hdt hlt hgt
  · exact ⟨rfl, min_le_left _ _, le_max_left _ _⟩
  · have hstep : 0 < dt / tc := div_pos (not_le.mp hdt) htc
    have hgap : 0 < p._throttle_rpy_mix_desired - p._throttle_rpy_mix := by linarith
    have h0 : 0 ≤ min (dt / tc) (p._throttle_rpy_mix_desired - p._throttle_rpy_mix) :=
      le_min hstep.le hgap.le
    have h1 : min (dt / tc) (p._throttle_rpy_mix_desired - p._throttle_rpy_mix) ≤
        p._throttle_rpy_mix_desired - p._throttle_rpy_mix := min_le_right _ _
    refine ⟨rfl, ?_, ?_⟩
    · show min _ _ ≤ p._throttle_rpy_mix + _
      exact (min_le_left _ _).trans (by linarith)
    · show p._throttle_rpy_mix + _ ≤ max _ _
      exact le_trans (by linarith) (le_max_right _ _)
  · have hstep : 0 < dt / tc := div_pos (not_le.mp hdt) htc
    have hgap : 0 < p._throttle_rpy_mix - p._throttle_rpy_mix_desired := by linarith
    have h0 : 0 ≤ min (dt / tc) (p._throttle_rpy_mix - p._throttle_rpy_mix_desired) :=
      le_min hstep.le hgap.le
    have h1 : min (dt / tc) (p._throttle_rpy_mix - p._throttle_rpy_mix_desired) ≤
        p._throttle_rpy_mix - p._throttle_rpy_mix_desired := min_le_right _ _
    refine ⟨rfl, ?_, ?_⟩
    · show min _ _ ≤ p._throttle_rpy_mix - _
      exact (min_le_right _ _).trans (by linarith)
    · show p._throttle_rpy_mix - _ ≤ max _ _
      exact le_trans (by linarith) (le_max_left _ _)
  · exact ⟨rfl, min_le_left _ _, le_max_left _ _⟩

theorem update_throttle_rpy_mix_no_overshoot_witness :
    (0 : ℚ) < 3 / 2 ∧
    min (MixCall.applyAll (construct 0.3 0.1 0.9 1)
          [MixCall.mix_value 0.9, MixCall.mix_min])._throttle_rpy_mix
        (MixCall.applyAll (construct 0.3 0.1 0.9 1)
          [MixCall.mix_value 0.9, MixCall.mix_min])._throttle_rpy_mix_desired ≤
      ((MixCall.applyAll (construct 0.3 0.1 0.9 1)
          [MixCall.mix_value 0.9, MixCall.mix_min]).update_throttle_rpy_mix
            0.02 (3 / 2))._throttle_rpy_mix :=
  ⟨by norm_num,
    (update_throttle_rpy_mix_no_overshoot (construct 0.3 0.1 0.9 1)
      [MixCall.mix_value 0.9, MixCall.mix_min] 0.02 (3 / 2) (by norm_num)).2.1⟩

/-! ## The parameter check -/

/-- C5: whatever the three presets were, and under either resolution policy,
after `parameter_sanity_check()` they satisfy
`_thr_mix_min ≤ _thr_mix_man ≤ _thr_mix_max`. -/
theorem parameter_sanity_check_mix_order (policy : MixOrderPolicy)
    (s : AC_AttitudeControl_Multi) :
    (s.parameter_sanity_check policy)._thr_mix_min ≤
      (s.parameter_sanity_check policy)._thr_mix_man ∧
    (s.parameter_sanity_check policy)._thr_mix_man ≤
      (s.parameter_sanity_check policy)._thr_mix_max := by
  show (sanity_check_mix policy s)._thr_mix_min ≤ (sanity_check_mix policy s)._thr_mix_man ∧
    (sanity_check_mix policy s)._thr_mix_man ≤ (sanity_check_mix policy s)._thr_mix_max
  unfold sanity_check_mix
  split_ifs with h
  · exact h
  · cases policy with
    | reorder =>
      refine ⟨?_, ?_⟩
      · show min (min s._thr_mix_min s._thr_mix_man) s._thr_mix_max ≤
          max (min s._thr_mix_min s._thr_mix_man)
            (min (max s._thr_mix_min s._thr_mix_man) s._thr_mix_max)
        exact (min_le_left _ _).trans (le_max_left _ _)
      · show max (min s._thr_mix_min s._thr_mix_man)
            (min (max s._thr_mix_min s._thr_mix_man) s._thr_mix_max) ≤
          max (max s._thr_mix_min s._thr_mix_man) s._thr_mix_max
        refine max_le ?_ ?_
        · exact (min_le_left _ _).trans ((le_max_left _ _).trans (le_max_left _ _))
        · exact (min_le_left _ _).trans (le_max_left _ _)
    | clamp =>
      exact constrain_float_bounds s._thr_mix_man s._thr_mix_min
        (max s._thr_mix_max s._thr_mix_min) (le_max_right _ _)

/-- C6 as stated fails: the controller built from the compiled-in defaults has,
after `parameter_sanity_check()`, a roll error-filter cutoff of 0, so not all
cutoffs are strictly positive; and the compiled-in default `filt_E_hz` of the
roll and of the pitch PID is 0, not strictly positive. -/
theorem parameter_sanity_check_cutoffs_not_all_positive :
    ¬ cutoffs_positive
        ((construct 0.1 0.1 0.5 1).parameter_sanity_check MixOrderPolicy.reorder) ∧
    ((construct 0.1 0.1 0.5 1).parameter_sanity_check
        MixOrderPolicy.reorder)._pid_rate_roll._filt_E_hz = 0 ∧
    ¬ _pid_rate_roll_defaults.cutoffs_positive ∧
    ¬ _pid_rate_pitch_defaults.cutoffs_positive := by
  refine ⟨?_, ?_, ?_, ?_⟩
  · intro h
    have h2 := h.1.2.1
    norm_num [parameter_sanity_check, construct, AC_PID.sanity_check, AC_PID.ofDefaults,
      sanity_cutoff, _pid_rate_roll_defaults] at h2
  · norm_num [parameter_sanity_check, construct, AC_PID.sanity_check, AC_PID.ofDefaults,
      sanity_cutoff, _pid_rate_roll_defaults]
  · intro h
    have h2 := h.2.1
    norm_num [_pid_rate_roll_defaults] at h2
  · intro h
    have h2 := h.2.1
    norm_num [_pid_rate_pitch_defaults] at h2

/-- C6 amended: after `parameter_sanity_check()` each filter cutoff that was
strictly positive is unchanged and each other one is its compiled-in default
(20 for every target and derivative filter, 2.5 for the yaw error filter, 0 for
the roll and pitch error filters); so the target and derivative cutoffs of all
three axes and the yaw error cutoff are strictly positive, and the roll and
pitch error cutoffs are non-negative. -/
theorem parameter_sanity_check_cutoffs (policy : MixOrderPolicy)
    (s : AC_AttitudeControl_Multi) :
    ((s.parameter_sanity_check policy)._pid_rate_roll._filt_T_hz =
        (if 0 < s._pid_rate_roll._filt_T_hz then s._pid_rate_roll._filt_T_hz else 20) ∧
      (s.parameter_sanity_check policy)._pid_rate_roll._filt_E_hz =
        (if 0 < s._pid_rate_roll._filt_E_hz then s._pid_rate_roll._filt_E_hz else 0) ∧
      (s.parameter_sanity_check policy)._pid_rate_roll._filt_D_hz =
        (if 0 < s._pid_rate_roll._filt_D_hz then s._pid_rate_roll._filt_D_hz else 20)) ∧
    ((s.parameter_sanity_check policy)._pid_rate_pitch._filt_T_hz =
        (if 0 < s._pid_rate_pitch._filt_T_hz then s._pid_rate_pitch._filt_T_hz else 20) ∧
      (s.parameter_sanity_check policy)._pid_rate_pitch._filt_E_hz =
        (if 0 < s._pid_rate_pitch._filt_E_hz then s._pid_rate_pitch._filt_E_hz else 0) ∧
      (s.parameter_sanity_check policy)._pid_rate_pitch._filt_D_hz =
        (if 0 < s._pid_rate_pitch._filt_D_hz then s._pid_rate_pitch._filt_D_hz else 20)) ∧
    ((s.parameter_sanity_check policy)._pid_rate_yaw._filt_T_hz =
        (if 0 < s._pid_rate_yaw._filt_T_hz then s._pid_rate_yaw._filt_T_hz else 20) ∧
      (s.parameter_sanity_check policy)._pid_rate_yaw._filt_E_hz =
        (if 0 < s._pid_rate_yaw._filt_E_hz then s._pid_rate_yaw._filt_E_hz else 2.5) ∧
      (s.parameter_sanity_check policy)._pid_rate_yaw._filt_D_hz =
        (if 0 < s._pid_rate_yaw._filt_D_hz then s._pid_rate_yaw._filt_D_hz else 20)) ∧
    (0 < (s.parameter_sanity_check policy)._pid_rate_roll._filt_T_hz ∧
      0 ≤ (s.parameter_sanity_check policy)._pid_rate_roll._filt_E_hz ∧
      0 < (s.parameter_sanity_check policy)._pid_rate_roll._filt_D_hz) ∧
    (0 < (s.parameter_sanity_check policy)._pid_rate_pitch._filt_T_hz ∧
      0 ≤ (s.parameter_sanity_check policy)._pid_rate_pitch._filt_E_hz ∧
      0 < (s.parameter_sanity_check policy)._pid_rate_pitch._filt_D_hz) ∧
    (0 < (s.parameter_sanity_check policy)._pid_rate_yaw._filt_T_hz ∧
      0 < (s.parameter_sanity_check policy)._pid_rate_yaw._filt_E_hz ∧
      0 < (s.parameter_sanity_check policy)._pid_rate_yaw._filt_D_hz) ∧
    (_pid_rate_roll_defaults.filt_T_hz = 20 ∧ _pid_rate_roll_defaults.filt_E_hz = 0 ∧
      _pid_rate_roll_defaults.filt_D_hz = 20) ∧
    (_pid_rate_pitch_defaults.filt_T_hz = 20 ∧ _pid_rate_pitch_defaults.filt_E_hz = 0 ∧
      _pid_rate_pitch_defaults.filt_D_hz = 20) ∧
    (_pid_rate_yaw_defaults.filt_T_hz = 20 ∧ _pid_rate_yaw_defaults.filt_E_hz = 2.5 ∧
      _pid_rate_yaw_defaults.filt_D_hz = 20) := by
  have pos : ∀ hz dflt : ℚ, 0 < dflt → 0 < sanity_cutoff hz dflt := by
    intro hz dflt hd
    unfold sanity_cutoff
    split_ifs with h
    · exact h
    · exact hd
  have nonneg : ∀ hz : ℚ, 0 ≤ sanity_cutoff hz 0 := by
    intro hz
    unfold sanity_cutoff
    split_ifs with h
    · exact h.le
    · exact le_refl _
  have rT : _pid_rate_roll_defaults.filt_T_hz = 20 := by
    norm_num [_pid_rate_roll_defaults, AC_ATC_MULTI_RATE_RPY_FILT_HZ]
  have rE : _pid_rate_roll_defaults.filt_E_hz = 0 := by
    norm_num [_pid_rate_roll_defaults]
  have rD : _pid_rate_roll_defaults.filt_D_hz = 20 := by
    norm_num [_pid_rate_roll_defaults, AC_ATC_MULTI_RATE_RPY_FILT_HZ]
  have pT : _pid_rate_pitch_defaults.filt_T_hz = 20 := by
    norm_num [_pid_rate_pitch_defaults, AC_ATC_MULTI_RATE_RPY_FILT_HZ]
  have pE : _pid_rate_pitch_defaults.filt_E_hz = 0 := by
    norm_num [_pid_rate_pitch_defaults]
  have pD : _pid_rate_pitch_defaults.filt_D_hz = 20 := by
    norm_num [_pid_rate_pitch_defaults, AC_ATC_MULTI_RATE_RPY_FILT_HZ]
  have yT : _pid_rate_yaw_defaults.filt_T_hz = 20 := by
    norm_num [_pid_rate_yaw_defaults, AC_ATC_MULTI_RATE_RPY_FILT_HZ]
  have yE : _pid_rate_yaw_defaults.filt_E_hz = 2.5 := by
    norm_num [_pid_rate_yaw_defaults, AC_ATC_MULTI_RATE_YAW_FILT_HZ]
  have yD : _pid_rate_yaw_defaults.filt_D_hz = 20 := by
    norm_num [_pid_rate_yaw_defaults, AC_ATC_MULTI_RATE_RPY_FILT_HZ]
  have e1 : (s.parameter_sanity_check policy)._pid_rate_roll =
      s._pid_rate_roll.sanity_check _pid_rate_roll_defaults := rfl
  have e2 : (s.parameter_sanity_check policy)._pid_rate_pitch =
      s._pid_rate_pitch.sanity_check _pid_rate_pitch_defaults := rfl
  have e3 : (s.parameter_sanity_check policy)._pid_rate_yaw =
      s._pid_rate_yaw.sanity_check _pid_rate_yaw_defaults := rfl
  rw [e1, e2, e3]
  simp only [AC_PID.sanity_check, rT, rE, rD, pT, pE, pD, yT, yE, yD]
  refine ⟨⟨rfl, rfl, rfl⟩, ⟨rfl, rfl, rfl⟩, ⟨rfl, rfl, rfl⟩,
    ⟨pos _ _ (by norm_num), nonneg _, pos _ _ (by norm_num)⟩,
    ⟨pos _ _ (by norm_num), nonneg _, pos _ _ (by norm_num)⟩,
    ⟨pos _ _ (by norm_num), pos _ _ (by norm_num), pos _ _ (by norm_num)⟩,
    ⟨trivial, trivial, trivial⟩, ⟨trivial, trivial, trivial⟩, ⟨trivial, trivial, trivial⟩⟩

/-! ## Rate PID defaults -/

/-- C7: the compiled-in roll rate PID defaults are P = 0.135, I = 0.135,
D = 0.0036, imax = 0.5; and the roll PID built from them, with a zero
integrator, after 10 integrator ticks at error 1.0 and dt = 0.0025 has the
integrator term `min(0.135*1.0*10*0.0025, 0.5) = 0.003375`, strictly below
imax. -/
theorem roll_integrator_ten_ticks :
    (_pid_rate_roll_defaults.p = 0.135 ∧ _pid_rate_roll_defaults.i = 0.135 ∧
      _pid_rate_roll_defaults.d = 0.0036 ∧ _pid_rate_roll_defaults.imax = 0.5) ∧
    (AC_PID.ofDefaults _pid_rate_roll_defaults).get_i = 0 ∧
    ((AC_PID.ofDefaults _pid_rate_roll_defaults).hold_error 1.0 0.0025 10).get_i =
      min (0.135 * 1.0 * 10 * 0.0025) 0.5 ∧
    ((AC_PID.ofDefaults _pid_rate_roll_defaults).hold_error 1.0 0.0025 10).get_i =
      0.003375 ∧
    ((AC_PID.ofDefaults _pid_rate_roll_defaults).hold_error 1.0 0.0025 10).get_i <
      ((AC_PID.ofDefaults _pid_rate_roll_defaults).hold_error 1.0 0.0025 10)._kimax := by
  have hi : ((AC_PID.ofDefaults _pid_rate_roll_defaults).hold_error 1.0 0.0025 10).get_i =
      0.003375 := by
    norm_num [AC_PID.hold_error, AC_PID.update_i, AC_PID.get_i, AC_PID.ofDefaults,
      constrain_float, _pid_rate_roll_defaults, AC_ATC_MULTI_RATE_RP_I,
      AC_ATC_MULTI_RATE_RP_IMAX]
  have hk : ((AC_PID.ofDefaults _pid_rate_roll_defaults).hold_error 1.0 0.0025 10)._kimax =
      0.5 := by
    norm_num [AC_PID.hold_error, AC_PID.update_i, AC_PID.ofDefaults,
      _pid_rate_roll_defaults, AC_ATC_MULTI_RATE_RP_IMAX]
  refine ⟨⟨?_, ?_, ?_, ?_⟩, rfl, ?_, hi, ?_⟩
  · norm_num [_pid_rate_roll_defaults, AC_ATC_MULTI_RATE_RP_P]
  · norm_num [_pid_rate_roll_defaults, AC_ATC_MULTI_RATE_RP_I]
  · norm_num [_pid_rate_roll_defaults, AC_ATC_MULTI_RATE_RP_D]
  · norm_num [_pid_rate_roll_defaults, AC_ATC_MULTI_RATE_RP_IMAX]
  · rw [hi]; norm_num
  · rw [hi, hk]; norm_num

/-- C8: the roll and the pitch rate PID defaults are equal field by field; the
yaw defaults differ from them in p (0.180 vs 0.135), i (0.018 vs 0.135),
d (0 vs 0.0036) and filt_E_hz (2.5 vs 0), and agree with them in ff, imax,
filt_T_hz, filt_D_hz, srmax and srtau. -/
theorem rate_pid_defaults_per_axis :
    (_pid_rate_roll_defaults.p = _pid_rate_pitch_defaults.p ∧
      _pid_rate_roll_defaults.i = _pid_rate_pitch_defaults.i ∧
      _pid_rate_roll_defaults.d = _pid_rate_pitch_defaults.d ∧
      _pid_rate_roll_defaults.ff = _pid_rate_pitch_defaults.ff ∧
      _pid_rate_roll_defaults.imax = _pid_rate_pitch_defaults.imax ∧
      _pid_rate_roll_defaults.filt_T_hz = _pid_rate_pitch_defaults.filt_T_hz ∧
      _pid_rate_roll_defaults.filt_E_hz = _pid_rate_pitch_defaults.filt_E_hz ∧
      _pid_rate_roll_defaults.filt_D_hz = _pid_rate_pitch_defaults.filt_D_hz ∧
      _pid_rate_roll_defaults.srmax = _pid_rate_pitch_defaults.srmax ∧
      _pid_rate_roll_defaults.srtau = _pid_rate_pitch_defaults.srtau) ∧
    _pid_rate_roll_defaults = _pid_rate_pitch_defaults ∧
    _pid_rate_yaw_defaults ≠ _pid_rate_roll_defaults ∧
    (_pid_rate_yaw_defaults.p = 0.180 ∧ _pid_rate_roll_defaults.p = 0.135 ∧
      _pid_rate_yaw_defaults.p ≠ _pid_rate_roll_defaults.p) ∧
    (_pid_rate_yaw_defaults.i = 0.018 ∧ _pid_rate_roll_defaults.i = 0.135 ∧
      _pid_rate_yaw_defaults.i ≠ _pid_rate_roll_defaults.i) ∧
    (_pid_rate_yaw_defaults.d = 0 ∧ _pid_rate_roll_defaults.d = 0.0036 ∧
      _pid_rate_yaw_defaults.d ≠ _pid_rate_roll_defaults.d) ∧
    (_pid_rate_yaw_defaults.filt_E_hz = 2.5 ∧ _pid_rate_roll_defaults.filt_E_hz = 0 ∧
      _pid_rate_yaw_defaults.filt_E_hz ≠ _pid_rate_roll_defaults.filt_E_hz) ∧
    (_pid_rate_yaw_defaults.ff = _pid_rate_roll_defaults.ff ∧
      _pid_rate_yaw_defaults.imax = _pid_rate_roll_defaults.imax ∧
      _pid_rate_yaw_defaults.filt_T_hz = _pid_rate_roll_defaults.filt_T_hz ∧
      _pid_rate_yaw_defaults.filt_D_hz = _pid_rate_roll_defaults.filt_D_hz ∧
      _pid_rate_yaw_defaults.srmax = _pid_rate_roll_defaults.srmax ∧
      _pid_rate_yaw_defaults.srtau = _pid_rate_roll_defaults.srtau) := by
  have yp : _pid_rate_yaw_defaults.p = 0.180 := rfl
  have rp : _pid_rate_roll_defaults.p = 0.135 := rfl
  have yi : _pid_rate_yaw_defaults.i = 0.018 := rfl
  have ri : _pid_rate_roll_defaults.i = 0.135 := rfl
  have yd : _pid_rate_yaw_defaults.d = 0 := by
    norm_num [_pid_rate_yaw_defaults, AC_ATC_MULTI_RATE_YAW_D]
  have rd : _pid_rate_roll_defaults.d = 0.0036 := rfl
  have ye : _pid_rate_yaw_defaults.filt_E_hz = 2.5 := rfl
  have re : _pid_rate_roll_defaults.filt_E_hz = 0 := by
    norm_num [_pid_rate_roll_defaults]
  have hp : _pid_rate_yaw_defaults.p ≠ _pid_rate_roll_defaults.p := by
    rw [yp, rp]; norm_num
  refine ⟨⟨rfl, rfl, rfl, rfl, rfl, rfl, rfl, rfl, rfl, rfl⟩, rfl, ?_,
    ⟨yp, rp, hp⟩, ⟨yi, ri, ?_⟩, ⟨yd, rd, ?_⟩, ⟨ye, re, ?_⟩,
    ⟨rfl, ?_, rfl, rfl, rfl, rfl⟩⟩
  · intro h
    exact hp (congrArg AC_PID.Defaults.p h)
  · rw [yi, ri]; norm_num
  · rw [yd, rd]; norm_num
  · rw [ye, re]; norm_num
  · norm_num [_pid_rate_yaw_defaults, _pid_rate_roll_defaults, AC_ATC_MULTI_RATE_YAW_IMAX,
      AC_ATC_MULTI_RATE_RP_IMAX]
